import Mathlib

/-
  Shallow embedding of the Game Boy emulator core (src/Gameboy.js and the
  MMU source file) in Lean 4.

  Conventions of the embedding:
  - JavaScript numbers in this code base are nonnegative integers small
    enough to behave exactly like mathematical integers under the bitwise
    operators, so bytes, addresses and bank indices are modelled as Nat;
    quantities that the source lets go negative (the timer counter, the
    intermediate result of an 8-bit subtraction or decrement) are
    modelled as Int.
  - The 64 KiB backing array, the cartridge byte slice and the external
    RAM banks are modelled as functions Nat → Nat with pointwise update.
  - Methods that mutate the object are modelled as functions
    state → state (state-passing); methods that both mutate and return a
    value return a pair.
-/

namespace GB

/-- Pointwise update of an array modelled as a function. -/
def upd (m : Nat → Nat) (a v : Nat) : Nat → Nat :=
  fun x => if x = a then v else m x

theorem upd_same (m : Nat → Nat) (a v : Nat) : upd m a v a = v := by
  simp [upd]

theorem upd_other (m : Nat → Nat) (a v x : Nat) (h : x ≠ a) : upd m a v x = m x := by
  simp [upd, h]

/-- MMU state: the fields of function MMU() in the source. -/
structure MMU where
  memory : Nat → Nat
  cartridgeData : Nat → Nat
  JOYPAD : Nat
  mbc1 : Bool
  mbc2 : Bool
  romBanking : Bool
  currentRomBank : Nat
  ramBanks : Nat → Nat
  currentRamBank : Nat
  enableRam : Bool

/-- MMU.getJoypadState from the source: synthesises the 0xFF00 byte from the
stored selector bits and the joypad shadow. Reads fields only, mutates
nothing. -/
def MMU.getJoypadState (s : MMU) : Nat :=
  let result := s.memory 0xFF00
  let result := result ^^^ 0xFF
  if result &&& 0x20 ≠ 0 then
    let topNibble := (s.JOYPAD >>> 4) ||| 0xF0
    result &&& topNibble
  else if result &&& 0x10 ≠ 0 then
    let bottomNibble := (s.JOYPAD &&& 0xF) ||| 0xF0
    result &&& bottomNibble
  else result

/-- MMU.read from the source. -/
def MMU.read (s : MMU) (address : Nat) : Nat :=
  if address = 0xFF00 then s.getJoypadState
  else if 0x4000 ≤ address ∧ address ≤ 0x7FFF then
    s.cartridgeData ((address - 0x4000) + s.currentRomBank * 0x4000)
  else if 0xA000 ≤ address ∧ address ≤ 0xBFFF then
    s.ramBanks ((address - 0xA000) + s.currentRamBank * 0x2000)
  else s.memory address

/-- MMU.read in explicit state-passing form: every statement of the source
method is threaded through the state, and no statement assigns to a field
of the MMU, so every branch returns the state it received. -/
def MMU.readM (s : MMU) (address : Nat) : Nat × MMU :=
  if address = 0xFF00 then (s.getJoypadState, s)
  else if 0x4000 ≤ address ∧ address ≤ 0x7FFF then
    (s.cartridgeData ((address - 0x4000) + s.currentRomBank * 0x4000), s)
  else if 0xA000 ≤ address ∧ address ≤ 0xBFFF then
    (s.ramBanks ((address - 0xA000) + s.currentRamBank * 0x2000), s)
  else (s.memory address, s)

/-- The final else branch of MMU.write: a plain store into the backing
array. -/
def MMU.writePlain (s : MMU) (address data : Nat) : MMU :=
  { s with memory := upd s.memory address data }

/-- MMU.doEnableRamBanking from the source. The whole body sits inside
if (mbc2); with MBC1 the method does nothing. -/
def MMU.doEnableRamBanking (s : MMU) (address data : Nat) : MMU :=
  if s.mbc2 then
    if address &&& 0x8 ≠ 0 then s
    else
      let lowerNibble := data &&& 0xF
      if lowerNibble = 0xA then { s with enableRam := true }
      else if lowerNibble = 0 then { s with enableRam := false }
      else s
  else s

/-- MMU.doRomLoBankChange from the source. -/
def MMU.doRomLoBankChange (s : MMU) (data : Nat) : MMU :=
  if s.mbc2 then
    let b := data &&& 0xF
    { s with currentRomBank := if b = 0 then b + 1 else b }
  else
    let lowerFiveBits := data &&& 0x1F
    let b := (s.currentRomBank &&& 0xE0) ||| lowerFiveBits
    { s with currentRomBank := if b = 0 then b + 1 else b }

/-- MMU.doRomHiBankChange from the source. -/
def MMU.doRomHiBankChange (s : MMU) (data : Nat) : MMU :=
  let b := (s.currentRomBank &&& 0x1F) ||| (data &&& 0xE0)
  { s with currentRomBank := if b = 0 then b + 1 else b }

/-- MMU.doRamBankChange from the source (the source masks with 0x2). -/
def MMU.doRamBankChange (s : MMU) (data : Nat) : MMU :=
  { s with currentRamBank := data &&& 0x2 }

/-- MMU.doChangeRomRamMode from the source. -/
def MMU.doChangeRomRamMode (s : MMU) (data : Nat) : MMU :=
  let leastSignificantBit := data &&& 0x1
  if leastSignificantBit = 0 then { s with romBanking := true, currentRamBank := 0 }
  else { s with romBanking := false }

/-- MMU.handleBanking from the source. -/
def MMU.handleBanking (s : MMU) (address data : Nat) : MMU :=
  if address < 0x2000 then
    if s.mbc1 || s.mbc2 then s.doEnableRamBanking address data else s
  else if 0x2000 ≤ address ∧ address < 0x4000 then
    if s.mbc1 || s.mbc2 then s.doRomLoBankChange data else s
  else if 0x4000 ≤ address ∧ address < 0x6000 then
    if s.mbc1 then
      if s.romBanking then s.doRomHiBankChange data else s.doRamBankChange data
    else s
  else if 0x6000 ≤ address ∧ address < 0x8000 then
    if s.mbc1 then s.doChangeRomRamMode data else s
  else s

/-- MMU.doDmaTransfer from the source: copies 0xA0 bytes read from
(data << 8) + i to 0xFE00 + i. The inner ths.write calls all target
0xFE00..0xFE9F, which fall through every special branch of write to the
final plain store, so they are plain stores here. -/
def MMU.doDmaTransfer (s : MMU) (data : Nat) : MMU :=
  let sourceAddress := data <<< 8
  (List.range 0xA0).foldl
    (fun t i => t.writePlain (0xFE00 + i) (t.read (sourceAddress + i))) s

/-- MMU.write from the source. The recursive echo-region call
write(address - 0x2000, data) targets 0xC000..0xDDFF, which falls through
every special branch to the final plain store, so it appears here as a
plain store. -/
def MMU.write (s : MMU) (address data : Nat) : MMU :=
  if address < 0x8000 then s.handleBanking address data
  else if 0xA000 ≤ address ∧ address < 0xC000 then
    if s.enableRam then
      let resolvedAddress := address - 0xA000
      { s with ramBanks := upd s.ramBanks (resolvedAddress + s.currentRamBank * 0x2000) data }
    else s
  else if address = 0xFF04 then { s with memory := upd s.memory address 0 }
  else if address = 0xFF44 then { s with memory := upd s.memory address 0 }
  else if address = 0xFF46 then s.doDmaTransfer data
  else if 0xFEA0 ≤ address ∧ address < 0xFEFF then s
  else if 0xE000 ≤ address ∧ address ≤ 0xFDFF then
    (s.writePlain (address - 0x2000) data).writePlain address data
  else s.writePlain address data

/-- MMU.initialize from the source: all memory zero, then the documented
post-boot register values; the joypad shadow is eight released (1) bits. -/
def MMU.initState : MMU :=
  let m0 : Nat → Nat := fun _ => 0
  let m := upd m0 0xFF00 0xFF
  let m := upd m 0xFF10 0x80
  let m := upd m 0xFF11 0xBF
  let m := upd m 0xFF12 0xF3
  let m := upd m 0xFF14 0xBF
  let m := upd m 0xFF16 0x3F
  let m := upd m 0xFF19 0xBF
  let m := upd m 0xFF1A 0x7F
  let m := upd m 0xFF1B 0xFF
  let m := upd m 0xFF1C 0x9F
  let m := upd m 0xFF1E 0xBF
  let m := upd m 0xFF20 0xFF
  let m := upd m 0xFF23 0xBF
  let m := upd m 0xFF24 0x77
  let m := upd m 0xFF25 0xF3
  let m := upd m 0xFF26 0xF1
  let m := upd m 0xFF40 0x91
  let m := upd m 0xFF47 0xFC
  let m := upd m 0xFF48 0xFF
  let m := upd m 0xFF49 0xFF
  { memory := m
    cartridgeData := fun _ => 0
    JOYPAD := 0xFF
    mbc1 := false
    mbc2 := false
    romBanking := true
    currentRomBank := 1
    ramBanks := fun _ => 0
    currentRamBank := 0
    enableRam := false }

/-- MMU.setCartridgeData from the source: store the slice and copy its
first 0x8000 bytes over the backing array. -/
def MMU.setCartridgeData (s : MMU) (data : Nat → Nat) : MMU :=
  { s with
    cartridgeData := data
    memory := fun i => if i < 0x8000 then data i else s.memory i }

/-- The CPU register file of function Gameboy() in the source. -/
structure Registers where
  A : Nat
  B : Nat
  C : Nat
  D : Nat
  E : Nat
  F : Nat
  H : Nat
  L : Nat
  PC : Nat
  SP : Nat

/-- Whole-machine state: the mutable fields of function Gameboy() in the
source that the CPU, interrupt and timer code touches. -/
structure Gameboy where
  registers : Registers
  mmu : MMU
  cpuStopped : Bool
  halted : Bool
  interruptsEnabled : Bool
  toDisableInterrupts : Int
  toEnableInterrupts : Int
  timerCounter : Int
  dividerCounter : Nat
  scanlineCounter : Int

/-- Flag-bit positions in register F (constants from the source). -/
def ZERO_BIT : Nat := 7

def SUBTRACT_BIT : Nat := 6

def HALF_CARRY_BIT : Nat := 5

def CARRY_BIT : Nat := 4

def DIVIDER_REGISTER_ADDR : Nat := 0xFF04

def TIMER_ADDR : Nat := 0xFF05

def TIMER_MODULATOR_ADDR : Nat := 0xFF06

def TIMER_CONTROLLER_ADDR : Nat := 0xFF07

def INTERRUPT_ENABLED_ADDR : Nat := 0xFFFF

def INTERRUPT_REQUEST_ADDR : Nat := 0xFF0F

/-- setFlagBit from the source: F |= (1 << bit) or F &= ~(1 << bit); the
JavaScript complement is over 32 bits. -/
def setFlagBit (F bit : Nat) (isSet : Bool) : Nat :=
  if isSet then F ||| (1 <<< bit)
  else F &&& (0xFFFFFFFF ^^^ (1 <<< bit))

/-- pushToStack from the source: decrement SP, then write the byte there. -/
def pushToStack (g : Gameboy) (data : Nat) : Gameboy :=
  let sp := g.registers.SP - 1
  { g with
    registers := { g.registers with SP := sp }
    mmu := g.mmu.write sp data }

/-- popFromStack from the source: read the byte at SP, then increment SP. -/
def popFromStack (g : Gameboy) : Nat × Gameboy :=
  let data := g.mmu.read g.registers.SP
  (data, { g with registers := { g.registers with SP := g.registers.SP + 1 } })

/-- requestInterrupt from the source: OR the requested bit into IF. -/
def requestInterrupt (g : Gameboy) (bit : Nat) : Gameboy :=
  let currentRegisterVal := g.mmu.read INTERRUPT_REQUEST_ADDR
  let currentRegisterVal :=
    if bit = 0 then currentRegisterVal ||| 1
    else if bit = 1 then currentRegisterVal ||| 2
    else if bit = 2 then currentRegisterVal ||| 4
    else if bit = 4 then currentRegisterVal ||| 16
    else currentRegisterVal
  { g with mmu := g.mmu.write INTERRUPT_REQUEST_ADDR currentRegisterVal }

/-- checkInterruptBitSet from the source; the switch has no case for
bit 3, where the JavaScript function returns undefined (falsy), modelled
as 0. -/
def checkInterruptBitSet (bit val : Nat) : Nat :=
  if bit = 0 then 1 &&& val
  else if bit = 1 then 2 &&& val
  else if bit = 2 then 4 &&& val
  else if bit = 4 then 16 &&& val
  else 0

/-- runInterrupt from the source: un-halt, clear IME, XOR the serviced bit
out of IF, push PC high byte then low byte, set PC to the vector. -/
def runInterrupt (g : Gameboy) (interrupt : Nat) : Gameboy :=
  let g := { g with halted := false, interruptsEnabled := false }
  let requestedValue := g.mmu.read INTERRUPT_REQUEST_ADDR
  let requestedValue :=
    if interrupt = 0 then requestedValue ^^^ 1
    else if interrupt = 1 then requestedValue ^^^ 2
    else if interrupt = 2 then requestedValue ^^^ 4
    else if interrupt = 4 then requestedValue ^^^ 16
    else requestedValue
  let g := { g with mmu := g.mmu.write INTERRUPT_REQUEST_ADDR requestedValue }
  let g := pushToStack g (g.registers.PC >>> 8)
  let g := pushToStack g (g.registers.PC &&& 0xFF)
  let pc :=
    if interrupt = 0 then 0x40
    else if interrupt = 1 then 0x48
    else if interrupt = 2 then 0x50
    else if interrupt = 4 then 0x60
    else g.registers.PC
  { g with registers := { g.registers with PC := pc } }

/-- The body of the for loop in doInterrupts, for one bit index i; the two
interrupt masks were read once before the loop and stay fixed while the
machine state evolves. -/
def doInterruptsStep (requestedInterrupts enabledInterrupts : Nat)
    (g : Gameboy) (i : Nat) : Gameboy :=
  if checkInterruptBitSet i requestedInterrupts ≠ 0 then
    if checkInterruptBitSet i enabledInterrupts ≠ 0 then runInterrupt g i
    else g
  else g

/-- doInterrupts from the source: when IME is set and IF is nonzero, loop
i = 0..4 and run every interrupt whose bit is set in the cached IF and IE
values (the loop has no break, so several interrupts can be serviced in
one call). -/
def doInterrupts (g : Gameboy) : Gameboy :=
  if g.interruptsEnabled then
    let requestedInterrupts := g.mmu.read INTERRUPT_REQUEST_ADDR
    let enabledInterrupts := g.mmu.read INTERRUPT_ENABLED_ADDR
    if requestedInterrupts > 0 then
      (List.range 5).foldl (doInterruptsStep requestedInterrupts enabledInterrupts) g
    else g
  else g

/-- isClockEnabled from the source: TAC bit 2. -/
def isClockEnabled (g : Gameboy) : Bool :=
  g.mmu.read TIMER_CONTROLLER_ADDR &&& 4 ≠ 0

/-- getClockFrequency from the source: TAC bits 0..1. -/
def getClockFrequency (g : Gameboy) : Nat :=
  g.mmu.read TIMER_CONTROLLER_ADDR &&& 3

/-- setClockFrequency from the source: reset timerCounter to the period
selected by TAC bits 0..1 (the masked value is at most 3, so the final
branch is the switch case 3). -/
def setClockFrequency (g : Gameboy) : Gameboy :=
  let frequency := getClockFrequency g
  if frequency = 0 then { g with timerCounter := 1024 }
  else if frequency = 1 then { g with timerCounter := 16 }
  else if frequency = 2 then { g with timerCounter := 64 }
  else { g with timerCounter := 256 }

/-- incrementDividerRegister from the source; the DIV stores go straight
to mmu.memory, bypassing MMU.write. -/
def incrementDividerRegister (g : Gameboy) (cycles : Nat) : Gameboy :=
  let g := { g with dividerCounter := g.dividerCounter + cycles }
  if g.dividerCounter ≥ 255 then
    let g := { g with dividerCounter := 0 }
    let currentDividerValue := g.mmu.read DIVIDER_REGISTER_ADDR
    if currentDividerValue = 255 then
      { g with mmu := g.mmu.writePlain DIVIDER_REGISTER_ADDR 0 }
    else
      { g with mmu := g.mmu.writePlain DIVIDER_REGISTER_ADDR (currentDividerValue + 1) }
  else g

/-- updateTimers from the source: it calls setClockFrequency at the top of
every invocation (resetting timerCounter to the full period), advances
DIV, and only then subtracts the cycles of this step. -/
def updateTimers (g : Gameboy) (cycles : Nat) : Gameboy :=
  let g := setClockFrequency g
  let g := incrementDividerRegister g cycles
  if isClockEnabled g then
    let g := { g with timerCounter := g.timerCounter - (cycles : Int) }
    if g.timerCounter ≤ 0 then
      let g := setClockFrequency g
      let currentTimerValue := g.mmu.read TIMER_ADDR
      if g.mmu.read TIMER_ADDR = 255 then
        let g := { g with mmu := g.mmu.write TIMER_ADDR (g.mmu.read TIMER_MODULATOR_ADDR) }
        requestInterrupt g 2
      else
        { g with mmu := g.mmu.write TIMER_ADDR (currentTimerValue + 1) }
    else g
  else g

/-- inc8Bit from the source, with the F register threaded explicitly:
returns (new register value, new F). Flag bits are only ever set by this
routine, never cleared (except N, which setFlagBit clears). -/
def inc8Bit (F register : Nat) : Nat × Nat :=
  let curVal := register
  let F := if curVal &&& 0xF = 0xF then setFlagBit F HALF_CARRY_BIT true else F
  let curVal := curVal + 1
  let (curVal, F) :=
    if curVal > 0xFF then (0, setFlagBit F ZERO_BIT true) else (curVal, F)
  let F := setFlagBit F SUBTRACT_BIT false
  (curVal, F)

/-- dec8Bit from the source, with F threaded explicitly; the intermediate
value is an integer because the JavaScript decrement can go to -1 before
the wrap to 0xFF. -/
def dec8Bit (F register : Nat) : Nat × Nat :=
  let curVal : Int := register
  let F := if register &&& 0xF = 0 then setFlagBit F HALF_CARRY_BIT true else F
  let curVal := curVal - 1
  let F := if curVal = 0 then setFlagBit F ZERO_BIT true else F
  let curVal := if curVal < 0 then (0xFF : Int) else curVal
  let F := setFlagBit F SUBTRACT_BIT true
  (curVal.toNat, F)

/-- add8Bit from the source, with F threaded explicitly: returns
(result, new F). On overflow the source executes result -= 0xFF, and no
flag bit is ever cleared (except N). -/
def add8Bit (F destination value : Nat) (withCarry : Bool) : Nat × Nat :=
  let value :=
    if withCarry then
      if (F >>> CARRY_BIT) &&& 1 ≠ 0 then value + 1 else value
    else value
  let result := destination + value
  let isHalfCarry := (destination &&& 0xF) + (value &&& 0xF)
  let F := if isHalfCarry > 0xF then setFlagBit F HALF_CARRY_BIT true else F
  let (result, F) :=
    if result > 0xFF then (result - 0xFF, setFlagBit F CARRY_BIT true)
    else (result, F)
  let F := if result = 0 then setFlagBit F ZERO_BIT true else F
  let F := setFlagBit F SUBTRACT_BIT false
  (result, F)

/-- sub8Bit from the source, with F threaded explicitly; the intermediate
result is an integer because the JavaScript difference can be negative,
and the underflow adjustment executes result += 0xFF. -/
def sub8Bit (F destination value : Nat) (withCarry : Bool) : Nat × Nat :=
  let value :=
    if withCarry then
      if (F >>> CARRY_BIT) &&& 1 ≠ 0 then value + 1 else value
    else value
  let result : Int := (destination : Int) - (value : Int)
  let isHalfCarry : Int := ((destination &&& 0xF : Nat) : Int) - ((value &&& 0xF : Nat) : Int)
  let F := if isHalfCarry < 0 then setFlagBit F HALF_CARRY_BIT true else F
  let (result, F) :=
    if result < 0 then (result + 0xFF, setFlagBit F CARRY_BIT true)
    else (result, F)
  let F := if result = 0 then setFlagBit F ZERO_BIT true else F
  let F := setFlagBit F SUBTRACT_BIT true
  (result.toNat, F)

/-- executeOperation from the source, for the opcodes this development
reasons about; every other opcode takes the switch default, which leaves
the state unchanged and returns 0 cycles. Returns (state, cycles). The
program counter increments for operand fetches (++PC) are performed
inside the case, exactly as in the source; the +1 for the opcode byte
itself happens afterwards in executeOpcode. -/
def executeOperation (g : Gameboy) (opcode : Nat) : Gameboy × Nat :=
  if opcode = 0x00 then
    (g, 4)
  else if opcode = 0x04 then
    let r := inc8Bit g.registers.F g.registers.B
    ({ g with registers := { g.registers with B := r.1, F := r.2 } }, 4)
  else if opcode = 0x05 then
    let r := dec8Bit g.registers.F g.registers.B
    ({ g with registers := { g.registers with B := r.1, F := r.2 } }, 4)
  else if opcode = 0x76 then
    ({ g with halted := true }, 4)
  else if opcode = 0x80 then
    let r := add8Bit g.registers.F g.registers.A g.registers.B false
    ({ g with registers := { g.registers with A := r.1, F := r.2 } }, 4)
  else if opcode = 0x90 then
    let r := sub8Bit g.registers.F g.registers.A g.registers.B false
    ({ g with registers := { g.registers with A := r.1, F := r.2 } }, 4)
  else if opcode = 0xC1 then
    let p1 := popFromStack g
    let g := { p1.2 with registers := { p1.2.registers with C := p1.1 } }
    let p2 := popFromStack g
    ({ p2.2 with registers := { p2.2.registers with B := p2.1 } }, 12)
  else if opcode = 0xC3 then
    let pc := g.registers.PC + 1
    let addressHi := g.mmu.read pc
    let pc := pc + 1
    let addressLo := g.mmu.read pc
    let address := (addressHi <<< 8) ^^^ addressLo
    ({ g with registers := { g.registers with PC := address - 1 } }, 12)
  else if opcode = 0xC5 then
    let g := pushToStack g g.registers.B
    let g := pushToStack g g.registers.C
    (g, 16)
  else if opcode = 0xD1 then
    let p1 := popFromStack g
    let g := { p1.2 with registers := { p1.2.registers with E := p1.1 } }
    let p2 := popFromStack g
    ({ p2.2 with registers := { p2.2.registers with D := p2.1 } }, 12)
  else if opcode = 0xD5 then
    let g := pushToStack g g.registers.D
    let g := pushToStack g g.registers.E
    (g, 16)
  else if opcode = 0xE1 then
    let p1 := popFromStack g
    let g := { p1.2 with registers := { p1.2.registers with L := p1.1 } }
    let p2 := popFromStack g
    ({ p2.2 with registers := { p2.2.registers with H := p2.1 } }, 12)
  else if opcode = 0xE5 then
    let g := pushToStack g g.registers.H
    let g := pushToStack g g.registers.L
    (g, 16)
  else if opcode = 0xF1 then
    let p1 := popFromStack g
    let g := { p1.2 with registers := { p1.2.registers with F := p1.1 } }
    let p2 := popFromStack g
    ({ p2.2 with registers := { p2.2.registers with A := p2.1 } }, 12)
  else if opcode = 0xF5 then
    let g := pushToStack g g.registers.A
    let g := pushToStack g g.registers.F
    (g, 16)
  else
    (g, 0)

/-- executeOpcode from the source: when not halted, fetch at PC, dispatch,
then increment PC; when halted, return 4 cycles without fetching. Finally
advance the deferred DI/EI counters. Returns (state, cycles). -/
def executeOpcode (g : Gameboy) : Gameboy × Nat :=
  let r :=
    if ¬ g.halted then
      let nextOp := g.mmu.read g.registers.PC
      let r := executeOperation g nextOp
      ({ r.1 with registers := { r.1.registers with PC := r.1.registers.PC + 1 } }, r.2)
    else (g, 4)
  let g := r.1
  let cycles := r.2
  let g :=
    if g.toDisableInterrupts ≥ 0 then
      let t := g.toDisableInterrupts + 1
      if t = 2 then { g with interruptsEnabled := false, toDisableInterrupts := -1 }
      else { g with toDisableInterrupts := t }
    else g
  let g :=
    if g.toEnableInterrupts ≥ 0 then
      let t := g.toEnableInterrupts + 1
      if t = 2 then { g with interruptsEnabled := true, toEnableInterrupts := -1 }
      else { g with toEnableInterrupts := t }
    else g
  (g, cycles)

/-- this.initialize from the source, composed with the constructor field
values: reset registers, fresh MMU, timer and interrupt bookkeeping. -/
def Gameboy.initState : Gameboy :=
  { registers :=
      { A := 0x01, F := 0xB0, B := 0x00, C := 0x13
        D := 0x00, E := 0xD8, H := 0x01, L := 0x4D
        PC := 0x100, SP := 0xFFFE }
    mmu := MMU.initState
    cpuStopped := false
    halted := false
    interruptsEnabled := true
    toDisableInterrupts := -1
    toEnableInterrupts := -1
    timerCounter := 1024
    dividerCounter := 0
    scanlineCounter := 456 }

/-- loadProgram from the source: hand the cartridge slice to the MMU. -/
def loadProgram (g : Gameboy) (data : Nat → Nat) : Gameboy :=
  { g with mmu := g.mmu.setCartridgeData data }

/- Concrete machine states used to evaluate the code on the inputs the
claims speak about. -/

/-- Reset state with IME on, PC = 0x1234, and both the V-Blank (bit 0) and
Timer (bit 2) interrupts pending in IF and enabled in IE. -/
def interruptTestState : Gameboy :=
  { Gameboy.initState with
    registers := { Gameboy.initState.registers with PC := 0x1234 }
    mmu := { Gameboy.initState.mmu with
      memory := upd (upd Gameboy.initState.mmu.memory 0xFF0F 5) 0xFFFF 5 } }

/-- Reset state with TAC = 0x05: timer enabled, frequency code 1
(period 16 T-cycles); TIMA and TMA are 0. -/
def timerTestState : Gameboy :=
  { Gameboy.initState with
    mmu := { Gameboy.initState.mmu with
      memory := upd Gameboy.initState.mmu.memory 0xFF07 0x05 } }

/-- Reset state with A = 0xFF, B = 0x01 and all flags clear. -/
def addTestState : Gameboy :=
  { Gameboy.initState with
    registers := { Gameboy.initState.registers with A := 0xFF, B := 0x01, F := 0 } }

/-- Reset state with B = 0 and the Z flag already set (F = 0x80). -/
def incTestState : Gameboy :=
  { Gameboy.initState with
    registers := { Gameboy.initState.registers with B := 0, F := 0x80 } }

/-- A halted CPU with IME clear while the V-Blank interrupt is both
pending (IF bit 0) and enabled (IE bit 0). -/
def haltTestState : Gameboy :=
  { Gameboy.initState with
    halted := true
    interruptsEnabled := false
    mmu := { Gameboy.initState.mmu with
      memory := upd (upd Gameboy.initState.mmu.memory 0xFF0F 1) 0xFFFF 1 } }

/-- Cartridge with 0xC3 0x50 0x01 (JP a16) at the entry point 0x0100. -/
def jpCart : Nat → Nat := fun a =>
  if a = 0x100 then 0xC3
  else if a = 0x101 then 0x50
  else if a = 0x102 then 0x01
  else 0

/-- Reset state with the JP cartridge loaded. -/
def jpTestState : Gameboy := loadProgram Gameboy.initState jpCart

/-- Cartridge with PUSH BC (0xC5) at 0x0100 and POP AF (0xF1) at 0x0101. -/
def popAfCart : Nat → Nat := fun a =>
  if a = 0x100 then 0xC5
  else if a = 0x101 then 0xF1
  else 0

/-- Reset state with the PUSH BC / POP AF cartridge loaded. -/
def popAfTestState : Gameboy := loadProgram Gameboy.initState popAfCart

/- Helper lemmas about stack traffic in high RAM: an address in
0xFF80..0xFFFD takes the plain-store branch of MMU.write and the
backing-array branch of MMU.read. -/

theorem hram_write (s : MMU) (a d : Nat) (h1 : 0xFF80 ≤ a) (h2 : a ≤ 0xFFFD) :
    s.write a d = s.writePlain a d := by
  unfold MMU.write
  rw [if_neg (by omega), if_neg (by omega), if_neg (by omega), if_neg (by omega),
      if_neg (by omega), if_neg (by omega), if_neg (by omega)]

theorem hram_read (s : MMU) (a : Nat) (h1 : 0xFF80 ≤ a) (h2 : a ≤ 0xFFFD) :
    s.read a = s.memory a := by
  unfold MMU.read
  rw [if_neg (by omega), if_neg (by omega), if_neg (by omega)]

/-- Two bytes pushed at SP-1 and SP-2 read back unchanged when the stack
sits in high RAM. -/
theorem stack_readback (m : MMU) (sp d1 d2 : Nat)
    (h1 : 0xFF82 ≤ sp) (h2 : sp ≤ 0xFFFE) :
    ((m.write (sp - 1) d1).write (sp - 1 - 1) d2).read (sp - 1 - 1) = d2
  ∧ ((m.write (sp - 1) d1).write (sp - 1 - 1) d2).read (sp - 1 - 1 + 1) = d1 := by
  rw [hram_write _ _ _ (by omega) (by omega), hram_write _ _ _ (by omega) (by omega),
      hram_read _ _ (by omega) (by omega), hram_read _ _ (by omega) (by omega)]
  show upd (upd m.memory (sp - 1) d1) (sp - 1 - 1) d2 (sp - 1 - 1) = d2
    ∧ upd (upd m.memory (sp - 1) d1) (sp - 1 - 1) d2 (sp - 1 - 1 + 1) = d1
  refine ⟨upd_same _ _ _, ?_⟩
  rw [upd_other _ _ _ _ (by omega)]
  have h : sp - 1 - 1 + 1 = sp - 1 := by omega
  rw [h, upd_same]

/-- MMU.readM agrees with MMU.read on the value and returns its input
state in every branch. -/
theorem readM_eq (s : MMU) (address : Nat) : s.readM address = (s.read address, s) := by
  unfold MMU.readM MMU.read
  repeat' split
  all_goals rfl

/- The claims. -/

/-- C1: the claim says that when IME is set and several of bits
{0, 1, 2, 4} are pending in IF ∧ IE, exactly one interrupt — the
lowest-set bit — is serviced in the step. The code's doInterrupts loop
has no break: with bits 0 and 2 both pending and enabled it services
both in one call. From PC = 0x1234, SP = 0xFFFE, IF = IE = 0b101: IF
ends 0, PC ends at the Timer vector 0x50 (not 0x40), SP drops by 4, and
the second frame pushed is the first vector 0x40. -/
theorem doInterrupts_services_all_pending :
    (doInterrupts interruptTestState).registers.PC = 0x50
  ∧ (doInterrupts interruptTestState).mmu.read INTERRUPT_REQUEST_ADDR = 0
  ∧ (doInterrupts interruptTestState).registers.SP = 0xFFFA
  ∧ (doInterrupts interruptTestState).mmu.memory 0xFFFD = 0x12
  ∧ (doInterrupts interruptTestState).mmu.memory 0xFFFC = 0x34
  ∧ (doInterrupts interruptTestState).mmu.memory 0xFFFB = 0x00
  ∧ (doInterrupts interruptTestState).mmu.memory 0xFFFA = 0x40 := by
  decide

/-- C2: the claim says the internal TIMA remainder persists across steps,
so TIMA advances once per elapsed period even when the period is spread
over several small steps. The code calls setClockFrequency at the top of
every updateTimers call, resetting the remainder to the full period: with
TAC = 0x05 (period 16) two consecutive 8-cycle steps leave TIMA at 0 and
the remainder at 8, while a single 16-cycle step does increment TIMA. -/
theorem updateTimers_resets_remainder_every_step :
    (updateTimers (updateTimers timerTestState 8) 8).mmu.read TIMER_ADDR = 0
  ∧ (updateTimers (updateTimers timerTestState 8) 8).timerCounter = 8
  ∧ (updateTimers timerTestState 16).mmu.read TIMER_ADDR = 1 := by
  decide

/-- C3: the claim says ADD A, B with A = 0xFF, B = 0x01 gives A = 0x00
with Z = H = C = 1. The code's add8Bit wraps an overflowing sum with
result -= 0xFF instead of -= 0x100, so from F = 0 it produces A = 0x01
and F = 0x30 (H and C set, Z clear). -/
theorem add8Bit_overflow_wraps_to_one :
    (executeOperation addTestState 0x80).1.registers.A = 0x01
  ∧ (executeOperation addTestState 0x80).1.registers.F = 0x30 := by
  decide

/-- C4: the claim says Z equals 1 iff the result's low byte is 0 after
every 8-bit ADD/SUB/INC/DEC. The code only ever sets Z, never clears it:
INC B with B = 0 and Z already set (F = 0x80) yields B = 1 with Z still
set. -/
theorem inc8Bit_zero_flag_not_cleared :
    (executeOperation incTestState 0x04).1.registers.B = 1
  ∧ ((executeOperation incTestState 0x04).1.registers.F >>> ZERO_BIT) &&& 1 = 1 := by
  decide

/-- C5: the claim says the halt flag is cleared as soon as IE ∧ IF is
nonzero regardless of IME. In the code, halted is cleared only inside
runInterrupt, which is reached only when IME is set: with IME clear and
IE = IF = 1 a full step (executeOpcode then doInterrupts) returns 4
cycles and leaves the CPU halted. -/
theorem halt_not_cleared_without_ime :
    haltTestState.mmu.read INTERRUPT_ENABLED_ADDR
        &&& haltTestState.mmu.read INTERRUPT_REQUEST_ADDR ≠ 0
  ∧ (executeOpcode haltTestState).2 = 4
  ∧ (doInterrupts (executeOpcode haltTestState).1).halted = true := by
  decide

/-- C6: the claim says the JP a16 at 0x0100 with operand bytes 0x50, 0x01
lands at PC = 0x0150 after one step. The code reads the first operand
byte as the high byte of the target, so the step ends with
PC = 0x5001. -/
theorem jp_a16_swaps_operand_bytes :
    (executeOpcode jpTestState).1.registers.PC = 0x5001
  ∧ (executeOpcode jpTestState).1.registers.PC ≠ 0x0150 := by
  decide

/-- C7: the claim says F's low nibble is zero in every reachable state,
in particular after POP AF. From reset, executing PUSH BC (pushing
C = 0x13) and then POP AF loads F = 0x13, whose low nibble is 3. -/
theorem pop_af_loads_low_nibble :
    (executeOpcode (executeOpcode popAfTestState).1).1.registers.F = 0x13
  ∧ (executeOpcode (executeOpcode popAfTestState).1).1.registers.F &&& 0xF ≠ 0 := by
  decide

/-- C8 counterexample: the claim says writes to 0xFEA0..0xFEFF inclusive
are dropped, but the code's guard is address < 0xFEFF, so a write to
0xFEFF itself changes the backing array. -/
theorem write_to_FEFF_not_dropped :
    (MMU.initState.write 0xFEFF 0xAB).memory 0xFEFF = 0xAB
  ∧ MMU.initState.memory 0xFEFF = 0 := by
  decide

/-- C8 (amended): writes to 0xFEA0..0xFEFE are dropped — the MMU state is
unchanged — while a write to 0xFEFF is an ordinary store into the backing
array. -/
theorem write_unusable_region_dropped (s : MMU) (a d : Nat)
    (h1 : 0xFEA0 ≤ a) (h2 : a ≤ 0xFEFF) :
    (a ≤ 0xFEFE → s.write a d = s)
  ∧ (a = 0xFEFF → s.write a d = s.writePlain a d) := by
  constructor
  · intro h3
    unfold MMU.write
    rw [if_neg (by omega), if_neg (by omega), if_neg (by omega), if_neg (by omega),
        if_neg (by omega), if_pos (by omega)]
  · intro h3
    subst h3
    rfl

/-- Witness for the amended C8 theorem at address 0xFEA5. -/
theorem write_unusable_region_dropped_witness :
    (0xFEA0 ≤ 0xFEA5 ∧ (0xFEA5 : Nat) ≤ 0xFEFF)
  ∧ ((0xFEA5 ≤ 0xFEFE → MMU.initState.write 0xFEA5 7 = MMU.initState)
      ∧ ((0xFEA5 : Nat) = 0xFEFF → MMU.initState.write 0xFEA5 7 = MMU.initState.writePlain 0xFEA5 7)) :=
  ⟨⟨by decide, by decide⟩,
    write_unusable_region_dropped MMU.initState 0xFEA5 7 (by decide) (by decide)⟩

/-- C9: for each pair BC, DE, HL, AF, executing PUSH r16 and then POP r16
(their executeOperation cases) with the stack in high RAM restores both
registers of the pair and leaves SP unchanged. -/
theorem push_pop_roundtrip (g : Gameboy)
    (h1 : 0xFF82 ≤ g.registers.SP) (h2 : g.registers.SP ≤ 0xFFFE) :
    ((executeOperation (executeOperation g 0xC5).1 0xC1).1.registers.B = g.registers.B
      ∧ (executeOperation (executeOperation g 0xC5).1 0xC1).1.registers.C = g.registers.C
      ∧ (executeOperation (executeOperation g 0xC5).1 0xC1).1.registers.SP = g.registers.SP)
  ∧ ((executeOperation (executeOperation g 0xD5).1 0xD1).1.registers.D = g.registers.D
      ∧ (executeOperation (executeOperation g 0xD5).1 0xD1).1.registers.E = g.registers.E
      ∧ (executeOperation (executeOperation g 0xD5).1 0xD1).1.registers.SP = g.registers.SP)
  ∧ ((executeOperation (executeOperation g 0xE5).1 0xE1).1.registers.H = g.registers.H
      ∧ (executeOperation (executeOperation g 0xE5).1 0xE1).1.registers.L = g.registers.L
      ∧ (executeOperation (executeOperation g 0xE5).1 0xE1).1.registers.SP = g.registers.SP)
  ∧ ((executeOperation (executeOperation g 0xF5).1 0xF1).1.registers.A = g.registers.A
      ∧ (executeOperation (executeOperation g 0xF5).1 0xF1).1.registers.F = g.registers.F
      ∧ (executeOperation (executeOperation g 0xF5).1 0xF1).1.registers.SP = g.registers.SP) := by
  have hBC := stack_readback g.mmu g.registers.SP g.registers.B g.registers.C h1 h2
  have hDE := stack_readback g.mmu g.registers.SP g.registers.D g.registers.E h1 h2
  have hHL := stack_readback g.mmu g.registers.SP g.registers.H g.registers.L h1 h2
  have hAF := stack_readback g.mmu g.registers.SP g.registers.A g.registers.F h1 h2
  have hsp : g.registers.SP - 1 - 1 + 1 + 1 = g.registers.SP := by omega
  refine ⟨⟨?_, ?_, ?_⟩, ⟨?_, ?_, ?_⟩, ⟨?_, ?_, ?_⟩, ⟨?_, ?_, ?_⟩⟩
  · exact Eq.trans rfl hBC.2
  · exact Eq.trans rfl hBC.1
  · exact Eq.trans rfl hsp
  · exact Eq.trans rfl hDE.2
  · exact Eq.trans rfl hDE.1
  · exact Eq.trans rfl hsp
  · exact Eq.trans rfl hHL.2
  · exact Eq.trans rfl hHL.1
  · exact Eq.trans rfl hsp
  · exact Eq.trans rfl hAF.2
  · exact Eq.trans rfl hAF.1
  · exact Eq.trans rfl hsp

/-- Witness for C9 at the reset state (SP = 0xFFFE), extracting the BC
round trip. -/
theorem push_pop_roundtrip_witness :
    (0xFF82 ≤ Gameboy.initState.registers.SP ∧ Gameboy.initState.registers.SP ≤ 0xFFFE)
  ∧ ((executeOperation (executeOperation Gameboy.initState 0xC5).1 0xC1).1.registers.B
        = Gameboy.initState.registers.B
      ∧ (executeOperation (executeOperation Gameboy.initState 0xC5).1 0xC1).1.registers.C
        = Gameboy.initState.registers.C
      ∧ (executeOperation (executeOperation Gameboy.initState 0xC5).1 0xC1).1.registers.SP
        = Gameboy.initState.registers.SP) :=
  ⟨⟨by decide, by decide⟩,
    (push_pop_roundtrip Gameboy.initState (by decide) (by decide)).1⟩

/-- C10: MMU read is side-effect-free. In the state-passing form of the
source method, every branch returns the incoming state unchanged, so two
consecutive reads of the same address in the same state return the same
byte. -/
theorem read_no_side_effects (s : MMU) (address : Nat) :
    (s.readM address).2 = s
  ∧ ((s.readM address).2.readM address).1 = (s.readM address).1 := by
  simp [readM_eq]

end GB
